/-
Verification of the sicktoolbox driver core against its specification.

The development shallowly embeds the relevant C++ functions of the
repository into Lean:

* `SickToolbox.headerSearch`, `SickToolbox.tryBody` and
  `SickToolbox.GetNextMessageFromDataStream` embed
  `SickLMSBufferMonitor::GetNextMessageFromDataStream`
  (src/c++/drivers/lms/sicklms-1.0/SickLMSBufferMonitor.cc), the
  binary-family buffer monitor.  The byte stream is a `List Nat` of the
  bytes available on the descriptor; `_readBytes` consumes from the
  front and a shortfall is a read timeout, matching the blocking
  per-byte-timeout read of the source.
* `SickToolbox.Uninitialize` and `SickToolbox.Initialize` embed
  `SickLMS1xx::Uninitialize` / `SickLMS1xx::Initialize`
  (src/c++/drivers/lms1xx/sicklms1xx/SickLMS1xx.cc), with the outcome of
  each constituent step (stop streaming, stop the monitor, close the
  transport, ...) supplied by an environment record, since those steps
  perform I/O.
* `SickToolbox.setupConnection` embeds `SickLMS1xx::_setupConnection`,
  with the outcomes of the OS calls (socket, connect, select,
  getsockopt) supplied by an environment record and the mode switches
  recorded in the result.
* `SickToolbox.expectedStr`, `SickToolbox.frameMatches` and
  `SickToolbox.pollForReply` embed the reply-signature construction of
  `SickLMS1xx::_sendMessageAndGetReply` and the matching discipline of
  the request/reply engine.
* `SickToolbox.computeXOR` and `SickToolbox.lms1xxBuildMessage` embed
  `SickLMS1xxMessage::_computeXOR` and `SickLMS1xxMessage::BuildMessage`
  (src/c++/drivers/lms1xx/sicklms1xx/SickLMS1xxMessage.cc).
* `SickToolbox.findSubString` embeds `SickLMS1xx::_findSubString`,
  logging every pair of array indices the inner comparison loop reads.
-/
import Mathlib

namespace SickToolbox

/-! ## Exceptions of the toolbox (SickException.hh hierarchy) -/

/-- The exception conditions the embedded functions can signal:
`SickTimeoutException`, `SickBadChecksumException`, `SickIOException`,
`SickErrorException`, `SickThreadException`, `SickConfigException`. -/
inductive SickExc where
  | timeout
  | badChecksum
  | ioError
  | errorExc
  | threadError
  | configError
deriving DecidableEq, Repr

/-! ## The binary-family message container

`SickLMSMessage` itself is not under src/ (only its user, the buffer
monitor, is), so the container is modelled from the spec. -/

/-- Modelled from the spec: the `SickLMSMessage` container (class not under
src/).  Per §3 a Frame "is either *unpopulated* (freshly constructed, no
valid content) or *populated*"; `Clear` returns it to `unpopulated`, and
`BuildMessage(address, payload, length)` populates it from a destination
address and a payload. -/
inductive MsgState where
  | unpopulated
  | populated (addr : Nat) (payload : List Nat)
deriving DecidableEq, Repr

/-- Modelled from the spec: the per-family framing constants and checksum
of the binary family, absent from src/ (`SickLMSMessage.hh`,
`SickLMSUtility.hh`).  §6: header is `STX(1) | destination-address(1) |
payload-length(2, family byte order)`; §4.2: the checksum is "a CRC16
over payload-plus-address"; `decode16` is the family byte-order decoding
of a two-byte field and `crc16` the family CRC, both kept abstract since
every claim about the monitor holds for any choice. -/
structure LMSConfig where
  hostAddr : Nat
  maxMsgLen : Nat
  headerLen : Nat
  decode16 : Nat → Nat → Nat
  crc16 : List Nat → Nat
  tcdrainOk : Bool

/-! ## The header search loop (SickLMSBufferMonitor.cc lines 57-75) -/

/-- Result of the header search: the marker was found, or a
`SickTimeoutException` was thrown (header timeout at line 69, or a read
timeout inside `_readBytes`).  Carries the remaining stream and the
number of bytes read from the stream by the search. -/
inductive HSResult where
  | found (rest : List Nat) (examined : Nat)
  | timeout (rest : List Nat) (examined : Nat)
deriving DecidableEq, Repr

/-- Embeds the `while(search_buffer[0] != 0x02 || search_buffer[1] !=
DEFAULT_SICK_LMS_HOST_ADDRESS)` loop of
`SickLMSBufferMonitor::GetNextMessageFromDataStream`: slide the
two-byte window, read one byte, throw the header timeout if
`bytes_searched > bound` (checked after the read, before the
increment), else continue.  `b0 b1` is the current window, `bs` the
current `bytes_searched`, and an empty stream is a read timeout. -/
def headerSearch (hostAddr bound : Nat) (b0 b1 bs : Nat) :
    List Nat → HSResult
  | [] =>
    if b0 = 2 ∧ b1 = hostAddr then .found [] bs
    else .timeout [] bs
  | c :: rest =>
    if b0 = 2 ∧ b1 = hostAddr then .found (c :: rest) bs
    else if bs > bound then .timeout rest (bs + 1)
    else headerSearch hostAddr bound b1 c (bs + 1) rest

/-- Outcome of the `try` block of `GetNextMessageFromDataStream`: normal
completion, or the exception it was left with. -/
inductive Outcome where
  | ok
  | timeout
  | badChecksum
deriving DecidableEq, Repr

/-- Embeds the `try` block of
`SickLMSBufferMonitor::GetNextMessageFromDataStream` (lines 57-105):
header search, two-byte payload-length read, the `payload_length <=
MESSAGE_MAX_LENGTH` guard, payload and checksum reads, `BuildMessage`,
and the CRC comparison that throws `SickBadChecksumException`.  Returns
the outcome together with the message container's state when the block
ended and the remaining stream. -/
def tryBody (cfg : LMSConfig) (stream : List Nat) (msg0 : MsgState) :
    Outcome × MsgState × List Nat :=
  match headerSearch cfg.hostAddr (cfg.maxMsgLen + cfg.headerLen) 0 0 0 stream with
  | .timeout rest _ => (.timeout, msg0, rest)
  | .found rest _ =>
    match rest with
    | l0 :: l1 :: rest2 =>
      let plen := cfg.decode16 l0 l1
      if plen ≤ cfg.maxMsgLen then
        if plen + 2 ≤ rest2.length then
          let payload := rest2.take plen
          let rest3 := rest2.drop plen
          match rest3 with
          | c0 :: c1 :: rest4 =>
            let declared := cfg.decode16 c0 c1
            let msg := MsgState.populated cfg.hostAddr payload
            if cfg.crc16 (cfg.hostAddr :: payload) ≠ declared then
              (.badChecksum, msg, rest4)
            else
              (.ok, msg, rest4)
          | _ => (.timeout, msg0, [])
        else (.timeout, msg0, [])
      else
        (.ok, msg0, rest2)
    | _ => (.timeout, msg0, [])

/-- Embeds `SickLMSBufferMonitor::GetNextMessageFromDataStream` whole:
the `tcdrain` guard, the `try` block, and the catch clauses —
`SickTimeoutException` is swallowed ("This is ok!"),
`SickBadChecksumException` clears the message container, and
`SickIOException` is re-thrown to the caller. -/
def GetNextMessageFromDataStream (cfg : LMSConfig) (stream : List Nat)
    (msg0 : MsgState) : Except SickExc (MsgState × List Nat) :=
  if cfg.tcdrainOk then
    match tryBody cfg stream msg0 with
    | (.ok, m, r) => .ok (m, r)
    | (.timeout, m, r) => .ok (m, r)
    | (.badChecksum, _, r) => .ok (.unpopulated, r)
  else
    .error .ioError

/-- `chainNoMarker addr prev s` holds when no adjacent pair of bytes in
`prev :: s` equals the start marker `(0x02, addr)`: these are exactly
the windows the header search will test after its window holds
`prev`. -/
def chainNoMarker (addr : Nat) : Nat → List Nat → Bool
  | _, [] => true
  | prev, c :: rest => !(prev = 2 && c = addr) && chainNoMarker addr c rest

/-- No start marker `(0x02, addr)` occurs in the window sequence the
header search examines on `s` (which starts from the zero-initialized
`search_buffer`). -/
def noMarker (addr : Nat) (s : List Nat) : Bool :=
  chainNoMarker addr 0 (0 :: s)

theorem headerSearch_timeout_of_chainNoMarker (addr bound : Nat) :
    ∀ (s : List Nat) (b0 b1 bs : Nat), ¬(b0 = 2 ∧ b1 = addr) →
      chainNoMarker addr b1 s = true →
      ∃ rest n, headerSearch addr bound b0 b1 bs s = .timeout rest n := by
  intro s
  induction s with
  | nil =>
    intro b0 b1 bs hm _
    exact ⟨[], bs, by simp [headerSearch, hm]⟩
  | cons c rest ih =>
    intro b0 b1 bs hm hchain
    simp only [chainNoMarker, Bool.and_eq_true, Bool.not_eq_true',
      Bool.and_eq_false_iff, decide_eq_false_iff_not] at hchain
    by_cases hb : bs > bound
    · exact ⟨rest, bs + 1, by simp [headerSearch, hm, hb]⟩
    · have hm2 : ¬(b1 = 2 ∧ c = addr) := by
        rcases hchain.1 with h | h
        · exact fun hc => h hc.1
        · exact fun hc => h hc.2
      obtain ⟨r, n, hr⟩ := ih b1 c (bs + 1) hm2 hchain.2
      exact ⟨r, n, by simp [headerSearch, hm, hb, hr]⟩

theorem headerSearch_examined_le (addr bound : Nat) :
    ∀ (s : List Nat) (b0 b1 bs : Nat), bs ≤ bound + 1 →
      ∀ rest n, headerSearch addr bound b0 b1 bs s = .timeout rest n →
        n ≤ bound + 2 := by
  intro s
  induction s with
  | nil =>
    intro b0 b1 bs hbs rest n h
    by_cases hm : b0 = 2 ∧ b1 = addr
    · simp [headerSearch, hm] at h
    · simp [headerSearch, hm] at h
      omega
  | cons c tl ih =>
    intro b0 b1 bs hbs rest n h
    by_cases hm : b0 = 2 ∧ b1 = addr
    · simp [headerSearch, hm] at h
    · by_cases hb : bs > bound
      · simp [headerSearch, hm, hb] at h
        omega
      · simp only [headerSearch, if_neg hm, if_neg hb] at h
        exact ih b1 c (bs + 1) (by omega) rest n h

/-- **C1.** In the binary-family buffer monitor, whenever a candidate
frame is fully assembled (header marker found, in-range payload length,
payload and checksum bytes read) and the CRC16 recomputed over the
assembled message differs from the checksum declared in the trailer,
`GetNextMessageFromDataStream` clears the message container back to
unpopulated and returns normally: the `SickBadChecksumException` is
caught inside the function and never propagates to the caller. -/
theorem c1_badChecksum_discarded (cfg : LMSConfig) (stream : List Nat)
    (msg0 : MsgState) (l0 l1 c0 c1 : Nat) (rest2 rest4 : List Nat) (n : Nat)
    (hdrain : cfg.tcdrainOk = true)
    (hfound : headerSearch cfg.hostAddr (cfg.maxMsgLen + cfg.headerLen) 0 0 0
      stream = .found (l0 :: l1 :: rest2) n)
    (hplen : cfg.decode16 l0 l1 ≤ cfg.maxMsgLen)
    (hlen : cfg.decode16 l0 l1 + 2 ≤ rest2.length)
    (hdrop : rest2.drop (cfg.decode16 l0 l1) = c0 :: c1 :: rest4)
    (hcrc : cfg.crc16 (cfg.hostAddr :: rest2.take (cfg.decode16 l0 l1)) ≠
      cfg.decode16 c0 c1) :
    GetNextMessageFromDataStream cfg stream msg0 = .ok (.unpopulated, rest4) := by
  simp only [GetNextMessageFromDataStream, hdrain, if_true, tryBody, hfound,
    hplen, if_pos, hlen, hdrop]
  simp [hplen, hlen, hdrop, hcrc]

/-- Witness for C1 at a concrete stream: marker `0x02 0x80`, declared
payload length 3, payload `[10, 20, 30]`, declared checksum 0 while the
recomputed CRC is 188 — the message is discarded and the call returns
normally. -/
theorem c1_witness :
    GetNextMessageFromDataStream
      ⟨128, 818, 4, fun a b => a + 256 * b, fun l => l.sum % 65536, true⟩
      [2, 128, 3, 0, 10, 20, 30, 0, 0] .unpopulated =
      .ok (.unpopulated, []) :=
  c1_badChecksum_discarded _ _ _ 3 0 0 0 [10, 20, 30, 0, 0] [] 2
    rfl (by decide) (by decide) (by decide) (by decide) (by decide)

/-- **C3.** In the binary-family buffer monitor, when the decoded
payload-length field exceeds the maximum message length, the monitor
skips all further processing: it reads neither payload nor checksum
bytes (the remaining stream is exactly the bytes after the length
field, so the position is not resynchronized), raises no error, and
leaves the output message exactly as it was (neither cleared nor
populated). -/
theorem c3_oversize_length_skipped (cfg : LMSConfig) (stream : List Nat)
    (msg0 : MsgState) (l0 l1 : Nat) (rest2 : List Nat) (n : Nat)
    (hdrain : cfg.tcdrainOk = true)
    (hfound : headerSearch cfg.hostAddr (cfg.maxMsgLen + cfg.headerLen) 0 0 0
      stream = .found (l0 :: l1 :: rest2) n)
    (hplen : cfg.maxMsgLen < cfg.decode16 l0 l1) :
    GetNextMessageFromDataStream cfg stream msg0 = .ok (msg0, rest2) := by
  have hnot : ¬(cfg.decode16 l0 l1 ≤ cfg.maxMsgLen) := by omega
  simp [GetNextMessageFromDataStream, hdrain, tryBody, hfound, hnot]

/-- Witness for C3 at a concrete stream: maximum message length 4,
declared payload length 10 — the oversize frame is silently skipped,
the stray byte `99` is left unconsumed, and the message container is
untouched. -/
theorem c3_witness :
    GetNextMessageFromDataStream
      ⟨128, 4, 4, fun a b => a + 256 * b, fun l => l.sum % 65536, true⟩
      [2, 128, 10, 0, 99] .unpopulated = .ok (.unpopulated, [99]) :=
  c3_oversize_length_skipped _ _ _ 10 0 [99] 2 rfl (by decide) (by decide)

/-- **C2 (counterexample).** The claim bounds the header search at
`maxMsgLen + headerLen` examined bytes; on a markerless stream with
`maxMsgLen + headerLen = 5` the search examines 7 bytes before raising
the header timeout, exceeding the claimed bound. -/
theorem c2_counterexample :
    noMarker 128 (List.replicate 10 255) = true ∧
      headerSearch 128 (3 + 2) 0 0 0 (List.replicate 10 255) =
        .timeout (List.replicate 3 255) 7 ∧
      ¬(7 ≤ 3 + 2) := by
  decide

/-- **C2 (amended).** For every input byte stream in which the start
marker `(0x02, host address)` does not appear, the header search
examines at most `maxMsgLen + headerLen + 2` bytes before an internal
`SickTimeoutException` (header timeout, or read timeout when the
stream runs dry first) stops it; the exception is caught inside
`GetNextMessageFromDataStream`, which returns normally with the output
message unchanged — the condition never propagates to the caller. -/
theorem c2_header_search_bounded (cfg : LMSConfig) (stream : List Nat)
    (msg0 : MsgState)
    (hdrain : cfg.tcdrainOk = true)
    (hnm : noMarker cfg.hostAddr stream = true) :
    ∃ rest n,
      headerSearch cfg.hostAddr (cfg.maxMsgLen + cfg.headerLen) 0 0 0 stream =
        .timeout rest n ∧
      n ≤ cfg.maxMsgLen + cfg.headerLen + 2 ∧
      GetNextMessageFromDataStream cfg stream msg0 = .ok (msg0, rest) := by
  have hm0 : ¬((0 : Nat) = 2 ∧ (0 : Nat) = cfg.hostAddr) := by
    intro h; exact absurd h.1 (by decide)
  have hchain : chainNoMarker cfg.hostAddr 0 stream = true := by
    have := hnm
    simp only [noMarker, chainNoMarker, Bool.and_eq_true] at this
    exact this.2
  obtain ⟨rest, n, hr⟩ :=
    headerSearch_timeout_of_chainNoMarker cfg.hostAddr
      (cfg.maxMsgLen + cfg.headerLen) stream 0 0 0 hm0 hchain
  refine ⟨rest, n, hr, ?_, ?_⟩
  · exact headerSearch_examined_le cfg.hostAddr (cfg.maxMsgLen + cfg.headerLen)
      stream 0 0 0 (by omega) rest n hr
  · simp [GetNextMessageFromDataStream, hdrain, tryBody, hr]

/-- Witness for the amended C2 on a concrete markerless stream of ten
`0xFF` bytes with `maxMsgLen = 3`, `headerLen = 2`. -/
theorem c2_witness :
    ∃ rest n,
      headerSearch 128 (3 + 2) 0 0 0 (List.replicate 10 255) =
        .timeout rest n ∧
      n ≤ 3 + 2 + 2 ∧
      GetNextMessageFromDataStream
        ⟨128, 3, 2, fun a b => a + 256 * b, fun l => l.sum % 65536, true⟩
        (List.replicate 10 255) .unpopulated = .ok (.unpopulated, rest) :=
  c2_header_search_bounded
    ⟨128, 3, 2, fun a b => a + 256 * b, fun l => l.sum % 65536, true⟩
    (List.replicate 10 255) .unpopulated rfl (by decide)

/-! ## SickLMS1xx engine lifecycle (SickLMS1xx.cc)

`Initialize`, `Uninitialize` and `_setupConnection` orchestrate I/O
steps; each step's outcome is supplied by an environment record and the
straight-line control flow of the source (including its catch-and-
rethrow clauses) is embedded directly. -/

/-- The connection state of a `SickLMS1xx` driver object:
`_sick_initialized` and `_sick_streaming` from the source, plus whether
the TCP socket descriptor exists and whether the buffer-monitor thread
is running (the resources §4.4 speaks about). -/
structure LMS1xxState where
  initialized : Bool
  streaming : Bool
  socketOpen : Bool
  monitorRunning : Bool
deriving DecidableEq, Repr

/-- The I/O-performing steps `Uninitialize` can attempt, in source
order. -/
inductive UninitOp where
  | stopStream
  | stopMeasure
  | stopListening
  | teardown
deriving DecidableEq, Repr

/-- Outcome of each step of `Uninitialize`: `none` on success, or the
exception the step raises (`_stopStreamingMeasurements` and
`_stopMeasuring` raise timeout/IO/config conditions,
`_stopListening` a thread condition, `_teardownConnection` an IO
condition). -/
structure UninitEnv where
  stopStreamRes : Option SickExc
  stopMeasureRes : Option SickExc
  stopListeningRes : Option SickExc
  teardownRes : Option SickExc
deriving DecidableEq, Repr

/-- The tail of `Uninitialize` after the streaming shutdown: cancel the
buffer monitor (`_stopListening`, which on success leaves the monitor
stopped), then close the TCP connection (`_teardownConnection`).  A
failure is re-raised by the catch clauses of lines 817-845 before
`_sick_initialized = false` (line 852) is reached, so the flag is
cleared only on the all-success path. -/
def uninitTail (env : UninitEnv) (s : LMS1xxState) (tr : List UninitOp) :
    Option SickExc × LMS1xxState × List UninitOp :=
  match env.stopListeningRes with
  | some e => (some e, s, tr ++ [.stopListening])
  | none =>
    let s1 := { s with monitorRunning := false }
    match env.teardownRes with
    | some e => (some e, s1, tr ++ [.stopListening, .teardown])
    | none =>
      (none, { s1 with socketOpen := false, initialized := false },
        tr ++ [.stopListening, .teardown])

/-- Embeds `SickLMS1xx::Uninitialize` (lines 788-855): fail with
`SickIOException` if not initialized; if streaming, stop the stream
(`_stopStreamingMeasurements`, which clears `_sick_streaming` on
success) and return the device to measuring mode (`_stopMeasuring`);
then stop the monitor and close the transport; re-raise the first
failure; clear `_sick_initialized` only after every step succeeded.
Returns the propagated exception (if any), the post-state, and the
trace of steps attempted. -/
def Uninitialize (env : UninitEnv) (s : LMS1xxState) :
    Option SickExc × LMS1xxState × List UninitOp :=
  if s.initialized = false then (some .ioError, s, [])
  else
    if s.streaming then
      match env.stopStreamRes with
      | some e => (some e, s, [.stopStream])
      | none =>
        let s1 := { s with streaming := false }
        match env.stopMeasureRes with
        | some e => (some e, s1, [.stopStream, .stopMeasure])
        | none => uninitTail env s1 [.stopStream, .stopMeasure]
    else uninitTail env s []

/-- The first failure `Uninitialize` encounters among its steps, in
source order. -/
def firstUninitFailure (env : UninitEnv) (streaming : Bool) : Option SickExc :=
  match (if streaming then
          (match env.stopStreamRes with
           | some e => some e
           | none => env.stopMeasureRes)
         else none) with
  | some e => some e
  | none =>
    match env.stopListeningRes with
    | some e => some e
    | none => env.teardownRes

/-- **C4 (counterexample).** The claim says every execution of
`Uninitialize` that passes the initial initialized check leaves
`initialized = false` even when a step fails.  With the buffer-monitor
cancellation failing (`SickThreadException`), the failure is re-raised
and the post-state still has `initialized = true`. -/
theorem c4_counterexample :
    Uninitialize ⟨none, none, some .threadError, none⟩
        ⟨true, false, true, true⟩ =
      (some .threadError, ⟨true, false, true, true⟩, [.stopListening]) ∧
    ¬(( Uninitialize ⟨none, none, some .threadError, none⟩
        ⟨true, false, true, true⟩).2.1.initialized = false) := by
  decide

/-- **C4 (amended).** For every execution of `Uninitialize` that passes
the initial initialized check: on the all-success path the post-state
has `initialized = false`, while if any step fails, the first failure
encountered is re-raised to the caller and the post-state still has
`initialized = true` (the flag-clearing statement is only reached after
the try block completes). -/
theorem c4_uninitialize_flag (env : UninitEnv) (s : LMS1xxState)
    (hinit : s.initialized = true) :
    (( Uninitialize env s).1 = none →
      ( Uninitialize env s).2.1.initialized = false) ∧
    (∀ e, ( Uninitialize env s).1 = some e →
      ( Uninitialize env s).2.1.initialized = true ∧
      firstUninitFailure env s.streaming = some e) := by
  obtain ⟨i, st, so, mo⟩ := s
  simp only at hinit
  subst hinit
  rcases env with ⟨a, b, c, d⟩
  cases st <;> cases a <;> cases b <;> cases c <;> cases d <;>
    simp [ Uninitialize, uninitTail, firstUninitFailure]

/-- Witness for the amended C4: a streaming, initialized state whose
`_stopMeasuring` step fails with a timeout — the failure is re-raised
and `initialized` stays `true`; and the all-success path on the same
state clears the flag. -/
theorem c4_witness :
    (( Uninitialize ⟨none, some .timeout, none, none⟩
        ⟨true, true, true, true⟩).2.1.initialized = true ∧
      firstUninitFailure ⟨none, some .timeout, none, none⟩ true =
        some .timeout) ∧
    ( Uninitialize ⟨none, none, none, none⟩
        ⟨true, true, true, true⟩).2.1.initialized = false :=
  ⟨(c4_uninitialize_flag ⟨none, some .timeout, none, none⟩
      ⟨true, true, true, true⟩ rfl).2 .timeout (by decide),
    (c4_uninitialize_flag ⟨none, none, none, none⟩
      ⟨true, true, true, true⟩ rfl).1 (by decide)⟩

/-- **C6.** Calling `Uninitialize` while `initialized` is `false` fails
immediately with `SickIOException`, performs no step (empty operation
trace, state unchanged); consequently a second consecutive call after a
successful one fails cleanly the same way. -/
theorem c6_uninitialize_not_initialized (env env2 : UninitEnv)
    (s s2 : LMS1xxState)
    (hs : s.initialized = false)
    (hs2 : s2.initialized = true)
    (hok : ( Uninitialize env s2).1 = none) :
    Uninitialize env s = (some .ioError, s, []) ∧
    Uninitialize env2 ( Uninitialize env s2).2.1 =
      (some .ioError, ( Uninitialize env s2).2.1, []) := by
  constructor
  · simp [ Uninitialize, hs]
  · have hcleared : ( Uninitialize env s2).2.1.initialized = false := by
      obtain ⟨i, st, so, mo⟩ := s2
      simp only at hs2
      subst hs2
      rcases env with ⟨a, b, c, d⟩
      cases st <;> cases a <;> cases b <;> cases c <;> cases d <;>
        simp_all [ Uninitialize, uninitTail]
    generalize hgen : ( Uninitialize env s2).2.1 = s3 at hcleared ⊢
    simp [ Uninitialize, hcleared]

/-- Witness for C6: an uninitialized state fails with `SickIOException`
and an empty trace, and a successful teardown followed by a second
`Uninitialize` fails the same way. -/
theorem c6_witness :
    Uninitialize ⟨none, none, none, none⟩ ⟨false, false, false, false⟩ =
      (some .ioError, ⟨false, false, false, false⟩, []) ∧
    Uninitialize ⟨none, none, none, none⟩
        ( Uninitialize ⟨none, none, none, none⟩
          ⟨true, false, true, true⟩).2.1 =
      (some .ioError,
        ( Uninitialize ⟨none, none, none, none⟩
          ⟨true, false, true, true⟩).2.1, []) :=
  ⟨(c6_uninitialize_not_initialized ⟨none, none, none, none⟩
      ⟨none, none, none, none⟩ ⟨false, false, false, false⟩
      ⟨true, false, true, true⟩ rfl rfl (by decide)).1,
    (c6_uninitialize_not_initialized ⟨none, none, none, none⟩
      ⟨none, none, none, none⟩ ⟨false, false, false, false⟩
      ⟨true, false, true, true⟩ rfl rfl (by decide)).2⟩

/-! ## TCP connection setup (`SickLMS1xx::_setupConnection`, lines 860-962) -/

/-- `DEFAULT_SICK_LMS_1XX_CONNECT_TIMEOUT` (SickLMS1xx.hh line 23), in
microseconds. -/
def DEFAULT_SICK_LMS_1XX_CONNECT_TIMEOUT : Nat := 1000000

/-- The three ways `connect` on the non-blocking socket can come back:
`conn_return >= 0`; `conn_return < 0` with `errno = EINPROGRESS`;
`conn_return < 0` with any other `errno`. -/
inductive ConnectRet where
  | success
  | inProgress
  | failOther
deriving DecidableEq, Repr

/-- The three ways `select` can come back: `num_active_files > 0`,
`= 0` (wait expired), `< 0`. -/
inductive SelectRet where
  | ready
  | expired
  | failed
deriving DecidableEq, Repr

/-- Outcomes of the OS calls `_setupConnection` makes: whether
`socket()` succeeds, how `connect` returns, how `select` returns,
whether `FD_ISSET` confirms the descriptor, whether `getsockopt`
succeeds, and whether the socket-level error option `SO_ERROR` is
non-zero. -/
structure ConnEnv where
  socketOk : Bool
  connectRet : ConnectRet
  selectRet : SelectRet
  fdIsSet : Bool
  getsockoptOk : Bool
  soErrorSet : Bool
deriving DecidableEq, Repr

/-- What an execution of `_setupConnection` did and how it ended:
the raised exception (if any), whether the descriptor was created,
whether `_setNonBlockingIO` ran before `connect` was issued, whether
`select` was used to await writability and with which timeout
(`timeout_val.tv_usec`), and whether `_setBlockingIO` restored blocking
mode. -/
structure SetupResult where
  res : Option SickExc
  fdCreated : Bool
  nonBlockingSet : Bool
  connectCalled : Bool
  selectCalled : Bool
  selectTimeoutUsec : Option Nat
  blockingRestored : Bool
deriving DecidableEq, Repr

/-- Embeds `SickLMS1xx::_setupConnection`: create the socket (failure is
a `SickIOException`), switch to non-blocking I/O, issue `connect`; if it
would block, `select` on writability with
`timeout_val.tv_usec = DEFAULT_SICK_LMS_1XX_CONNECT_TIMEOUT`; an
expired wait is a `SickTimeoutException`, a `select` failure, an
unexpected descriptor, a `getsockopt` failure, or a pending socket
error are `SickIOException`s; on the success paths `_setBlockingIO`
restores blocking mode (`_setNonBlockingIO` / `_setBlockingIO` are
plain `fcntl` wrappers from the base class, modelled as succeeding). -/
def setupConnection (e : ConnEnv) : SetupResult :=
  if e.socketOk = false then
    ⟨some .ioError, false, false, false, false, none, false⟩
  else
    match e.connectRet with
    | .success =>
      ⟨none, true, true, true, false, none, true⟩
    | .failOther =>
      ⟨some .ioError, true, true, true, false, none, false⟩
    | .inProgress =>
      match e.selectRet with
      | .expired =>
        ⟨some .timeout, true, true, true, true,
          some DEFAULT_SICK_LMS_1XX_CONNECT_TIMEOUT, false⟩
      | .failed =>
        ⟨some .ioError, true, true, true, true,
          some DEFAULT_SICK_LMS_1XX_CONNECT_TIMEOUT, false⟩
      | .ready =>
        if e.fdIsSet = false then
          ⟨some .ioError, true, true, true, true,
            some DEFAULT_SICK_LMS_1XX_CONNECT_TIMEOUT, false⟩
        else if e.getsockoptOk = false then
          ⟨some .ioError, true, true, true, true,
            some DEFAULT_SICK_LMS_1XX_CONNECT_TIMEOUT, false⟩
        else if e.soErrorSet then
          ⟨some .ioError, true, true, true, true,
            some DEFAULT_SICK_LMS_1XX_CONNECT_TIMEOUT, false⟩
        else
          ⟨none, true, true, true, true,
            some DEFAULT_SICK_LMS_1XX_CONNECT_TIMEOUT, true⟩

/-- **C7.** In every execution of `_setupConnection`: the socket is in
non-blocking mode whenever `connect` is issued; whenever completion is
awaited, the wait is `select` bounded by exactly 1,000,000 µs on the
socket's writability; the wait expiring raises the timeout condition
(`SickTimeoutException`), and that is the only way a timeout arises;
every other connect-phase failure raises `SickIOException`; and on
success blocking mode has been restored. -/
theorem c7_setup_connection_bounded (e : ConnEnv) :
    ((setupConnection e).connectCalled = true →
      (setupConnection e).nonBlockingSet = true) ∧
    ((setupConnection e).selectCalled = true →
      (setupConnection e).selectTimeoutUsec =
        some DEFAULT_SICK_LMS_1XX_CONNECT_TIMEOUT) ∧
    ((setupConnection e).res = some .timeout ↔
      e.socketOk = true ∧ e.connectRet = .inProgress ∧
        e.selectRet = .expired) ∧
    (∀ exc, (setupConnection e).res = some exc →
      exc = .timeout ∨ exc = .ioError) ∧
    ((setupConnection e).res = none →
      (setupConnection e).blockingRestored = true) := by
  rcases e with ⟨so, cr, sr, fd, gs, se⟩
  cases so <;> cases cr <;> cases sr <;> cases fd <;> cases gs <;>
    cases se <;> simp [setupConnection]

/-- Witness for C7: the wait expiring on an in-progress connect yields
the timeout condition with the 1,000,000 µs bound recorded, and a ready
socket with no pending error completes with blocking mode restored. -/
theorem c7_witness :
    (setupConnection ⟨true, .inProgress, .expired, false, false, false⟩).res =
        some .timeout ∧
    (setupConnection ⟨true, .inProgress, .expired, false, false,
        false⟩).selectTimeoutUsec = some DEFAULT_SICK_LMS_1XX_CONNECT_TIMEOUT ∧
    (setupConnection ⟨true, .success, .ready, true, true,
        false⟩).blockingRestored = true :=
  ⟨(c7_setup_connection_bounded
      ⟨true, .inProgress, .expired, false, false, false⟩).2.2.1.mpr
      ⟨rfl, rfl, rfl⟩,
    (c7_setup_connection_bounded
      ⟨true, .inProgress, .expired, false, false, false⟩).2.1 (by decide),
    (c7_setup_connection_bounded
      ⟨true, .success, .ready, true, true, false⟩).2.2.2.2 (by decide)⟩

/-! ## Driver initialization (`SickLMS1xx::Initialize`, lines 69-118) -/

/-- Outcomes of the steps of `Initialize`: the OS outcomes of
`_setupConnection`, the outcome of `_startListening` (the buffer
monitor start, from the base class: on success the monitor thread
runs), and the outcome of the startup query `_getSickScanConfig`. -/
structure InitEnv where
  conn : ConnEnv
  startListeningRes : Option SickExc
  getScanConfigRes : Option SickExc
deriving Repr

/-- Embeds `SickLMS1xx::Initialize`: `_setupConnection`, then
`_startListening`, then `_getSickScanConfig`; the catch clauses (lines
92-110) re-raise every failure without any cleanup, and
`_sick_initialized = true` (line 113) runs only after all three steps
succeed.  The socket flag tracks that `socket()` assigned `_sick_fd`
even on a failed connect. -/
def Initialize (env : InitEnv) (s : LMS1xxState) :
    Option SickExc × LMS1xxState :=
  let st := setupConnection env.conn
  let s1 := { s with socketOpen := st.fdCreated }
  match st.res with
  | some e => (some e, s1)
  | none =>
    match env.startListeningRes with
    | some e => (some e, s1)
    | none =>
      let s2 := { s1 with monitorRunning := true }
      match env.getScanConfigRes with
      | some e => (some e, s2)
      | none => (none, { s2 with initialized := true })

/-- **C5 (counterexample).** The claim says a failure during
`Initialize` leaves acquired resources released.  With the connection
established and the buffer-monitor start failing
(`SickThreadException`), the failure propagates with `initialized`
still `false` — but the socket remains open: the catch clauses re-raise
without releasing anything. -/
theorem c5_counterexample :
    Initialize ⟨⟨true, .success, .ready, true, true, false⟩,
        some .threadError, none⟩ ⟨false, false, false, false⟩ =
      (some .threadError, ⟨false, false, true, false⟩) ∧
    ¬((Initialize ⟨⟨true, .success, .ready, true, true, false⟩,
        some .threadError, none⟩ ⟨false, false, false, false⟩).2.socketOpen =
        false) := by
  decide

/-- **C5 (amended).** `Initialize` sets `initialized` to `true` only
after connection setup, buffer-monitor start, and the startup query
have all succeeded; if any step fails, the failure propagates with
`initialized` still `false`, but resources already acquired are left
acquired, not released: a created socket stays open and a started
monitor keeps running. -/
theorem c5_initialize_no_cleanup (env : InitEnv) (s : LMS1xxState)
    (hi : s.initialized = false) :
    ((Initialize env s).1 = none → (Initialize env s).2.initialized = true) ∧
    (∀ e, (Initialize env s).1 = some e →
      (Initialize env s).2.initialized = false) ∧
    ((setupConnection env.conn).fdCreated = true →
      (Initialize env s).2.socketOpen = true) ∧
    ((setupConnection env.conn).res = none → env.startListeningRes = none →
      (Initialize env s).2.monitorRunning = true) := by
  rcases env with ⟨ce, sl, gc⟩
  simp only [Initialize]
  rcases h : setupConnection ce with ⟨r, fd, nb, cc, sc, sto, br⟩
  cases r <;> cases sl <;> cases gc <;> simp_all

/-- Witness for the amended C5: with the socket up and the monitor
started, a failing startup query propagates a timeout, `initialized`
stays `false`, and both the socket and the monitor are left running. -/
theorem c5_witness :
    ((Initialize ⟨⟨true, .success, .ready, true, true, false⟩, none,
        some .timeout⟩ ⟨false, false, false, false⟩).2.initialized = false) ∧
    ((Initialize ⟨⟨true, .success, .ready, true, true, false⟩, none,
        some .timeout⟩ ⟨false, false, false, false⟩).2.socketOpen = true) ∧
    ((Initialize ⟨⟨true, .success, .ready, true, true, false⟩, none,
        some .timeout⟩ ⟨false, false, false, false⟩).2.monitorRunning = true) :=
  ⟨(c5_initialize_no_cleanup ⟨⟨true, .success, .ready, true, true, false⟩,
      none, some .timeout⟩ ⟨false, false, false, false⟩ rfl).2.1 .timeout
      (by decide),
    (c5_initialize_no_cleanup ⟨⟨true, .success, .ready, true, true, false⟩,
      none, some .timeout⟩ ⟨false, false, false, false⟩ rfl).2.2.1 (by decide),
    (c5_initialize_no_cleanup ⟨⟨true, .success, .ready, true, true, false⟩,
      none, some .timeout⟩ ⟨false, false, false, false⟩ rfl).2.2.2 (by decide)
      (by decide)⟩

/-! ## Reply-signature matching (`SickLMS1xx::_sendMessageAndGetReply`,
lines 2350-2386) -/

/-- Embeds line 2358 of SickLMS1xx.cc: `std::string expected_str =
reply_command_type + " " + reply_command`, on strings as character
lists. -/
def expectedStr (replyCommandType replyCommand : List Char) : List Char :=
  replyCommandType ++ [' '] ++ replyCommand

/-- Modelled from the spec: the reply matching of
`SickLIDAR::_sendMessageAndGetReply` (base class, not under src/),
which receives the expected signature as the byte sequence
`expected_str` with its length (line 2363).  §6: "reply matching is by
comparing the leading `"<type> <name>"` tokens against the expected
signature string" — a frame satisfies the wait iff its leading bytes
equal the expected signature. -/
def frameMatches (expected frame : List Char) : Bool :=
  frame.take expected.length == expected

/-- Modelled from the spec: the engine's wait loop (§4.4): published
frames are inspected in order and "a frame that does not match the
expected signature is discarded ... and polling continues"; the first
matching frame satisfies the wait. -/
def pollForReply (expected : List Char) : List (List Char) → Option (List Char)
  | [] => none
  | f :: fs =>
    if frameMatches expected f then some f else pollForReply expected fs

/-- **C8.** The expected reply signature for reply command type `T` and
name `C` is exactly the string `T`, one space, `C`; a received frame
satisfies the wait iff its leading bytes equal that signature; and a
frame whose leading bytes differ is ignored by the wait loop — it does
not satisfy the wait, which continues on the remaining frames. -/
theorem c8_reply_signature_matching (t c frame : List Char)
    (fs : List (List Char)) :
    expectedStr t c = t ++ ' ' :: c ∧
    (frameMatches (expectedStr t c) frame = true ↔
      frame.take (t.length + 1 + c.length) = t ++ ' ' :: c) ∧
    (frameMatches (expectedStr t c) frame = false →
      pollForReply (expectedStr t c) (frame :: fs) =
        pollForReply (expectedStr t c) fs) ∧
    (frameMatches (expectedStr t c) frame = true →
      pollForReply (expectedStr t c) (frame :: fs) = some frame) := by
  have hlen : (expectedStr t c).length = t.length + 1 + c.length := by
    simp [expectedStr]
    omega
  have hstr : expectedStr t c = t ++ ' ' :: c := by
    simp [expectedStr]
  refine ⟨hstr, ?_, ?_, ?_⟩
  · rw [frameMatches, hlen, hstr, beq_iff_eq]
  · intro h
    simp [pollForReply, h]
  · intro h
    simp [pollForReply, h]

/-- Witness for C8 at concrete tokens: type `sAN`, name `Sm`, a frame
starting `sAN Sm ...` satisfies the wait and a frame starting `sSN `
does not and is skipped. -/
theorem c8_witness :
    frameMatches (expectedStr ['s', 'A', 'N'] ['S', 'm'])
        ['s', 'A', 'N', ' ', 'S', 'm', ' ', '1'] = true ∧
    pollForReply (expectedStr ['s', 'A', 'N'] ['S', 'm'])
        [['s', 'S', 'N', ' ', 'S', 'm'], ['s', 'A', 'N', ' ', 'S', 'm']] =
      some ['s', 'A', 'N', ' ', 'S', 'm'] :=
  ⟨(c8_reply_signature_matching ['s', 'A', 'N'] ['S', 'm']
      ['s', 'A', 'N', ' ', 'S', 'm', ' ', '1'] []).2.1.mpr (by decide),
    by
      rw [(c8_reply_signature_matching ['s', 'A', 'N'] ['S', 'm']
        ['s', 'S', 'N', ' ', 'S', 'm']
        [['s', 'A', 'N', ' ', 'S', 'm']]).2.2.1 (by decide),
        (c8_reply_signature_matching ['s', 'A', 'N'] ['S', 'm']
        ['s', 'A', 'N', ' ', 'S', 'm'] []).2.2.2 (by decide)]⟩

/-! ## The ASCII-family codec (`SickLMS1xxMessage.cc`) -/

/-- `SICK_LMS_1XX_MSG_HEADER_LEN` (SickLMS1xxMessage.hh line 20). -/
def SICK_LMS_1XX_MSG_HEADER_LEN : Nat := 8

/-- `SICK_LMS_1XX_MSG_TRAILER_LEN` (SickLMS1xxMessage.hh line 22). -/
def SICK_LMS_1XX_MSG_TRAILER_LEN : Nat := 1

/-- Embeds `SickLMS1xxMessage::_computeXOR` (lines 151-162): the
checksum loop is commented out in the source, so the function returns
the initial `checksum = 0` for every buffer and length. -/
def computeXOR (data : Nat → Nat) (length : Nat) : Nat :=
  let _ := data
  let _ := length
  0

/-- Embeds `SickLMS1xxMessage::BuildMessage` (lines 71-90) together
with the parent step it documents: the parent copies the payload into
the message buffer after the 8-byte header region and sets
`_message_length` to header + payload + trailer; the child then writes
`_message_buffer[0] = 0x02` (STX) and
`_message_buffer[_message_length-1] = 0x03` (ETX). -/
def lms1xxBuildMessage (payload : List Nat) : List Nat :=
  ((List.replicate SICK_LMS_1XX_MSG_HEADER_LEN 0 ++ payload ++
      List.replicate SICK_LMS_1XX_MSG_TRAILER_LEN 0).set 0 2).set
    (SICK_LMS_1XX_MSG_HEADER_LEN + payload.length +
      SICK_LMS_1XX_MSG_TRAILER_LEN - 1) 3

/-- Embeds `SickLMS1xxMessage::GetChecksum` (SickLMS1xxMessage.hh line
62): `return _message_buffer[_message_length-1]`. -/
def lms1xxGetChecksum (messageBuffer : List Nat) : Nat :=
  messageBuffer.getD (messageBuffer.length - 1) 0

theorem set_append_singleton (l : List Nat) (x v : Nat) :
    (l ++ [x]).set l.length v = l ++ [v] := by
  induction l with
  | nil => rfl
  | cons a tl ih => simp [List.set, ih]

theorem lms1xxBuildMessage_eq (payload : List Nat) :
    lms1xxBuildMessage payload =
      (2 :: (List.replicate 7 0 ++ payload)) ++ [3] := by
  have h8 : List.replicate SICK_LMS_1XX_MSG_HEADER_LEN (0 : Nat) =
      0 :: List.replicate 7 0 := rfl
  have hset0 : (List.replicate SICK_LMS_1XX_MSG_HEADER_LEN (0 : Nat) ++
      payload ++ List.replicate SICK_LMS_1XX_MSG_TRAILER_LEN 0).set 0 2 =
      (2 :: (List.replicate 7 0 ++ payload)) ++ [0] := by
    rw [h8]
    simp [SICK_LMS_1XX_MSG_TRAILER_LEN, List.set]
  have hlen : (2 :: (List.replicate 7 0 ++ payload)).length =
      SICK_LMS_1XX_MSG_HEADER_LEN + payload.length +
        SICK_LMS_1XX_MSG_TRAILER_LEN - 1 := by
    simp [SICK_LMS_1XX_MSG_HEADER_LEN, SICK_LMS_1XX_MSG_TRAILER_LEN]
    omega
  rw [lms1xxBuildMessage, hset0, ← hlen, set_append_singleton]

/-- **C9.** In the ASCII/token family no checksum is computed or
verified: `_computeXOR` returns 0 for every buffer and length; a built
message starts with the STX byte `0x02`, its single trailer byte
(`SICK_LMS_1XX_MSG_TRAILER_LEN = 1`) is the ETX end marker `0x03`, and
`GetChecksum` on a built message merely reads back that ETX byte. -/
theorem c9_no_checksum_ascii_family (data : Nat → Nat) (length : Nat)
    (payload : List Nat) :
    computeXOR data length = 0 ∧
    SICK_LMS_1XX_MSG_TRAILER_LEN = 1 ∧
    (lms1xxBuildMessage payload).head? = some 2 ∧
    (lms1xxBuildMessage payload).getLast? = some 3 ∧
    lms1xxGetChecksum (lms1xxBuildMessage payload) = 3 := by
  refine ⟨rfl, rfl, ?_, ?_, ?_⟩
  · rw [lms1xxBuildMessage_eq]
    rfl
  · rw [lms1xxBuildMessage_eq, List.getLast?_append]
    rfl
  · rw [lms1xxGetChecksum, lms1xxBuildMessage_eq]
    have hl : ((2 :: (List.replicate 7 0 ++ payload)) ++ [3]).length =
        (2 :: (List.replicate 7 0 ++ payload)).length + 1 := by
      simp
    rw [hl]
    simp [List.getD_eq_getElem?_getD, List.getElem?_append_right]

/-! ## Substring search (`SickLMS1xx::_findSubString`, lines 2525-2549)

The strings are modelled as total functions `Nat → Int` (a C array read
always yields some value, even out of bounds); every index pair
`(k, j)` at which the inner loop's condition reads `str[k]` and
`substr[j]` is logged, so in-bounds claims become claims about the
log. -/

/-- C unsigned 32-bit subtraction, as performed by
`str_length - substr_length` in the loop bound. -/
def sub32 (a b : Nat) : Nat :=
  (a % 2 ^ 32 + (2 ^ 32 - b % 2 ^ 32)) % 2 ^ 32

/-- The inner comparison loop `for (unsigned int k = i; (str[k] ==
substr[j]) && (j < substr_length); k++, j++);` — each condition
evaluation reads `str[k]` and `substr[j]` first (C `&&` evaluates its
left operand unconditionally) and only then tests `j < substr_length`.
`rem` is `substr_length - j`, the number of comparisons the bound still
permits; returns the final `j` and the logged `(k, j)` read pairs. -/
def innerLoopF (str substr : Nat → Int) (k j : Nat) :
    Nat → Nat × List (Nat × Nat)
  | 0 => (j, [(k, j)])
  | rem + 1 =>
    if str k = substr j then
      let r := innerLoopF str substr (k + 1) (j + 1) rem
      (r.1, (k, j) :: r.2)
    else (j, [(k, j)])

/-- One run of the inner comparison loop starting at `k = i`,
`j = 0`. -/
def innerLoop (str substr : Nat → Int) (sublen i : Nat) :
    Nat × List (Nat × Nat) :=
  innerLoopF str substr i 0 sublen

/-- The outer loop `for (unsigned int i = start_pos; !substr_found && (i
< (str_length - substr_length) + 1); i++)`: `rem` is the number of
iterations the bound still permits; returns `substr_found`,
`substr_pos` (0 unless found, matching the initialization at line
2530), and the concatenated access log. -/
def findSubStringAuxF (str substr : Nat → Int) (sublen : Nat) :
    Nat → Nat → Bool × Nat × List (Nat × Nat)
  | _, 0 => (false, 0, [])
  | i, rem + 1 =>
    let inner := innerLoop str substr sublen i
    if inner.1 = sublen then (true, i, inner.2)
    else
      let rest := findSubStringAuxF str substr sublen (i + 1) rem
      (rest.1, rest.2.1, inner.2 ++ rest.2.2)

/-- Embeds `SickLMS1xx::_findSubString`: search `str` for `substr`
starting at `start_pos`, with the outer loop bounded by
`(str_length - substr_length) + 1` in C unsigned arithmetic. -/
def findSubString (str substr : Nat → Int)
    (strLength substrLength startPos : Nat) :
    Bool × Nat × List (Nat × Nat) :=
  findSubStringAuxF str substr substrLength startPos
    (sub32 strLength substrLength + 1 - startPos)

/-- **C10.** The claim asserts that with `1 ≤ substr_length ≤
str_length` and `start_pos ≤ str_length - substr_length` every array
access of `_findSubString` is in bounds.  At `str = [0, 1]`,
`substr = [1]` (`str_length = 2`, `substr_length = 1`,
`start_pos = 0`) — which satisfies all those side conditions — the
completed match at position 1 makes the inner loop's condition read
`str[2]` and `substr[1]`: one past each buffer, because the source
evaluates `str[k] == substr[j]` before testing `j < substr_length`. -/
theorem c10_out_of_bounds_access :
    (1 ≤ 1 ∧ 1 ≤ 2 ∧ 0 ≤ 2 - 1) ∧
    (findSubString (fun n => if n = 1 then 1 else 0) (fun _ => 1)
        2 1 0) =
      (true, 1, [(0, 0), (1, 0), (2, 1)]) ∧
    (2, 1) ∈ (findSubString (fun n => if n = 1 then 1 else 0) (fun _ => 1)
        2 1 0).2.2 ∧
    ¬(2 < 2 ∧ 1 < 1) := by
  refine ⟨by omega, ?_, ?_, by omega⟩
  · rfl
  · rw [show (findSubString (fun n => if n = 1 then 1 else 0) (fun _ => 1)
        2 1 0) = (true, 1, [(0, 0), (1, 0), (2, 1)]) from rfl]
    simp

end SickToolbox
